import Mathlib

/-!
Formal model of the StateSpaceGridApp state/controller core
(`statespacegridapp/model.py` and `statespacegridapp/controller.py`).

The state store (`AppState`) and the controller (`AppControl`) are embedded
shallowly: pandas `DataFrame`s become lists of rows of named string cells
(the app loads every file with `dtype=str`, so cells are strings and a
missing cell — NaN — is an absent name), listeners become the list that
`AppState.update` would pass to each of them, the two injected callback
slots of the controller become two booleans plus an event log, and every
raised `AppError` becomes the `Except.error` branch carrying the exact
message string the source builds.  Python string operations used by the
source (`str.split`, `str.strip`, `os.path.basename`, `os.path.splitext`)
are embedded as executable functions over the character list of a string.
Pandas error paths are modelled too: accessing or grouping by a column the
frame lacks raises KeyError, and `astype(float)` raises ValueError when a
cleaned time cell is not float-convertible — both appear as uncaught error
results carrying message strings distinct from every `AppError` message.
Not modelled: matplotlib figure handles, pandas file parsing (the parsed
table is taken as an argument), and the numeric values produced by the
`astype(float)` conversion (floating point) — only that conversion's
success, via the acceptance predicate `pyFloatOk`; trajectory times are
kept as the cleaned cell strings.
-/

/-- Python ASCII whitespace, as stripped by `str.strip()`. -/
def pyIsSpace (c : Char) : Bool :=
  c = ' ' || c = '\t' || c = '\n' || c = '\r' || c = '\x0b' || c = '\x0c'

/-- Python `str.strip()`: drop leading and trailing whitespace. -/
def pyStrip (s : String) : String :=
  String.mk (((s.data.dropWhile pyIsSpace).reverse.dropWhile pyIsSpace).reverse)

/-- Python `str.split(sep)` for a one-character separator, over the character
list; splitting the empty text yields one empty token. -/
def splitCharList (sep : Char) : List Char → List (List Char)
  | [] => [[]]
  | c :: cs =>
    match splitCharList sep cs with
    | [] => [[]]
    | g :: gs => if c = sep then [] :: g :: gs else (c :: g) :: gs

/-- Python `str.split(sep)` for a one-character separator. -/
def pySplit (sep : Char) (s : String) : List String :=
  (splitCharList sep s.data).map String.mk

/-- `os.path.basename`: the part of the path after the last slash. -/
def basename (p : String) : String :=
  (pySplit '/' p).getLastD ""

/-- The extension component of `os.path.splitext(p)`: the suffix of the
basename starting at its last dot, where leading dots of the basename do not
begin an extension. -/
def splitextExt (p : String) : String :=
  let body := (basename p).data.dropWhile (fun c => c = '.')
  match (splitCharList '.' body).reverse with
  | [] => ""
  | [_] => ""
  | ext :: _ => String.mk ('.' :: ext)

/-- `DataObjectIdentifier` from model.py: a base filename and an optional
group id. -/
structure DataObjectIdentifier where
  filename : String
  id : Option String
  deriving DecidableEq

/-- `DataObjectIdentifier.__str__`: filename, or filename::id when the group
id is present. -/
def identStr (d : DataObjectIdentifier) : String :=
  match d.id with
  | some i => d.filename ++ "::" ++ i
  | none => d.filename

/-- A pandas `DataFrame` as this app loads one (`dtype=str`): named columns
and rows of named string cells; a missing cell (NaN) is an absent name. -/
structure DataFrame where
  cols : List String
  rows : List (List (String × String))
  deriving DecidableEq

/-- `df[c].dropna().tolist()` for a column the frame has: the values of
column `c`, rows with a missing cell in `c` dropped.  pandas raises KeyError
when the frame lacks the column, so callers guard with `hasCol` first (see
`buildTrajectory` and `splitByIDRun`). -/
def colValues (df : DataFrame) (c : String) : List String :=
  df.rows.filterMap (fun r => List.lookup c r)

/-- Whether the frame has column `c`; `df[c]` and `df.groupby(c)` raise
KeyError when it does not. -/
def hasCol (df : DataFrame) (c : String) : Bool :=
  df.cols.contains c

/-- The uncaught Python KeyError raised by pandas column access or groupby
on a column the frame lacks. -/
def keyErrorMsg (c : String) : String :=
  "KeyError: \x27" ++ c ++ "\x27"

/-- First occurrences of the values of a list, in order of appearance. -/
def uniqueKeysAux : List String → List String → List String
  | acc, [] => acc
  | acc, v :: vs =>
    if acc.contains v then uniqueKeysAux acc vs else uniqueKeysAux (acc ++ [v]) vs

/-- The distinct values of a list, first occurrences first. -/
def uniqueKeys (l : List String) : List String :=
  uniqueKeysAux [] l

/-- Lexicographic comparison of character lists by code point, the order
Python uses to compare strings. -/
def listCharLe : List Char → List Char → Bool
  | [], _ => true
  | _ :: _, [] => false
  | a :: as, b :: bs => if a = b then listCharLe as bs else decide (a < b)

/-- Python string comparison. -/
def strLe (a b : String) : Bool :=
  listCharLe a.data b.data

/-- `strLe` as a decidable relation, for sorting. -/
def strLeP (a b : String) : Prop :=
  strLe a b = true

instance : DecidableRel strLeP :=
  fun a b => inferInstanceAs (Decidable (strLe a b = true))

/-- Sort a list of strings ascending, as pandas sorts group keys. -/
def sortStr (l : List String) : List String :=
  List.insertionSort strLeP l

/-- The group keys of `df.groupby(c)`: the distinct non-missing values of
column `c`, sorted ascending. -/
def groupKeys (df : DataFrame) (c : String) : List String :=
  sortStr (uniqueKeys (colValues df c))

/-- `df.groupby(c)` for a column the frame has: one group per distinct value
of column `c` (rows with a missing cell in `c` dropped), keys sorted
ascending, each group holding the rows whose cell in `c` equals the key.
pandas raises KeyError when the frame lacks the column — `splitByIDRun`
guards that path; `groupby` itself is the successful case. -/
def groupby (df : DataFrame) (c : String) : List (String × DataFrame) :=
  (groupKeys df c).map
    (fun k => (k, DataFrame.mk df.cols (df.rows.filter (fun r => List.lookup c r == some k))))

/-- The number of distinct (non-missing) values of column `c` in `df`. -/
def distinctCount (df : DataFrame) (c : String) : Nat :=
  (uniqueKeys (colValues df c)).length

/-- `DataObjectHolder` from model.py: one input table with its identifier,
headers and selection flag. -/
structure DataObjectHolder where
  filename : DataObjectIdentifier
  headers : List String
  data : DataFrame
  selected : Bool := true
  deriving DecidableEq

/-- `AppState` from model.py, without the matplotlib handles and with the
listener list replaced by the list a notification would deliver (see
`updateList`). -/
structure AppState where
  data_objects : List DataObjectHolder := []
  split_data_objects : List DataObjectHolder := []
  split_by_id : Option String := none
  y_header : Option String := none
  x_header : Option String := none
  t_header : Option String := none
  x_range : List String := []
  y_range : List String := []
  deriving DecidableEq

/-- The state `AppState()` starts in. -/
def initialState : AppState := {}

/-- `AppState.getDataObjects`: the split collection when non-empty, else the
ungrouped one (Python truthiness of the list). -/
def getDataObjects (s : AppState) : List DataObjectHolder :=
  if s.split_data_objects.isEmpty then s.data_objects else s.split_data_objects

/-- `AppState.getIDs`: string forms of the effective datasets' identifiers. -/
def getIDs (s : AppState) : List String :=
  (getDataObjects s).map (fun d => identStr d.filename)

/-- The comparison `sorted(..., key=attrgetter("filename.filename", "filename.id"))`
uses: filename first, then group id; an absent id sorts before a present one
(the two never mix in one list, see the reachability invariant below). -/
def idLe : Option String → Option String → Bool
  | none, _ => true
  | some _, none => false
  | some a, some b => strLe a b

/-- Holder comparison by the pair (filename, group id). -/
def keyLe (a b : DataObjectHolder) : Bool :=
  if a.filename.filename = b.filename.filename
  then idLe a.filename.id b.filename.id
  else strLe a.filename.filename b.filename.filename

/-- `keyLe` as a decidable relation, for sorting. -/
def keyLeP (a b : DataObjectHolder) : Prop :=
  keyLe a b = true

instance : DecidableRel keyLeP :=
  fun a b => inferInstanceAs (Decidable (keyLe a b = true))

/-- `AppState.update`: the list passed to every registered listener — the
effective datasets sorted by (filename, id). -/
def updateList (s : AppState) : List DataObjectHolder :=
  List.insertionSort keyLeP (getDataObjects s)

/-- `AppState._splitByID` applied to one data object: one new holder per
groupby key, its identifier carrying the key as group id. -/
def splitByIDList (key : String) (d : DataObjectHolder) : List DataObjectHolder :=
  (groupby d.data key).map
    (fun kv => ⟨⟨d.filename.filename, some kv.1⟩, d.headers, kv.2, true⟩)

/-- `AppState.addDataObject`: append a holder for the parsed table (headers
are the table's column names, identifier the path's basename with no group
id); when a split column is set (truthy), also append that table's grouped
entries — the successful case of that split: in the source a new table
lacking the split column raises a pandas KeyError there after the append
(compare `splitByIDRun`). -/
def addDataObject (s : AppState) (file_path : String) (data : DataFrame) : AppState :=
  let obj : DataObjectHolder := ⟨⟨basename file_path, none⟩, data.cols, data, true⟩
  let s1 := { s with data_objects := s.data_objects ++ [obj] }
  match s1.split_by_id with
  | none => s1
  | some k =>
    if k = "" then s1
    else { s1 with split_data_objects := s1.split_data_objects ++ splitByIDList k obj }

/-- `AppState.addSplitByID`: clear the split collection; an empty id clears
the split column, a non-empty one sets it and rebuilds the split collection
from every loaded dataset. -/
def addSplitByID (s : AppState) (id : String) : AppState :=
  if id = "" then { s with split_data_objects := [], split_by_id := none }
  else
    { s with
      split_by_id := some id,
      split_data_objects := (s.data_objects.map (splitByIDList id)).flatten }

/-- `AppState._splitByID` with the pandas error path: raises KeyError before
any append when the frame lacks the grouping column, else appends one holder
per group. -/
def splitByIDRun (key : String) (s : AppState) (d : DataObjectHolder) :
    Except String AppState :=
  if hasCol d.data key then
    Except.ok { s with split_data_objects := s.split_data_objects ++ splitByIDList key d }
  else Except.error (keyErrorMsg key)

/-- The rebuild loop of `addSplitByID` over the loaded datasets; on a
KeyError the state mutated so far is kept and the exception propagates. -/
def splitLoop (key : String) : AppState → List DataObjectHolder → AppState × Option String
  | s, [] => (s, none)
  | s, d :: ds =>
    match splitByIDRun key s d with
    | Except.ok s2 => splitLoop key s2 ds
    | Except.error e => (s, some e)

/-- `AppState.addSplitByID` with the pandas error path: the resulting state
(partially rebuilt when some dataset lacks the grouping column) together
with the uncaught KeyError, if any; the source reaches `update`
(notification) only when no exception is raised. -/
def addSplitByIDRun (s : AppState) (id : String) : AppState × Option String :=
  let s0 := { s with split_data_objects := ([] : List DataObjectHolder) }
  if id = "" then ({ s0 with split_by_id := none }, none)
  else splitLoop id { s0 with split_by_id := some id } s.data_objects

/-- `AppState.reset`: clear both collections, the split column and the three
column roles; the ranges are left alone. -/
def resetState (s : AppState) : AppState :=
  { s with
    data_objects := [], split_data_objects := [], split_by_id := none,
    x_header := none, y_header := none, t_header := none }

/-- `AppState.set_x_range`: split the raw text on commas and strip each
token. -/
def set_x_range (s : AppState) (range_list : String) : AppState :=
  { s with x_range := (pySplit ',' range_list).map pyStrip }

/-- `AppState.set_y_range`: split the raw text on commas and strip each
token. -/
def set_y_range (s : AppState) (range_list : String) : AppState :=
  { s with y_range := (pySplit ',' range_list).map pyStrip }

/-- `AppState.set_x_header`. -/
def set_x_header (s : AppState) (h : Option String) : AppState :=
  { s with x_header := h }

/-- `AppState.set_y_header`. -/
def set_y_header (s : AppState) (h : Option String) : AppState :=
  { s with y_header := h }

/-- `AppState.set_t_header`. -/
def set_t_header (s : AppState) (h : Option String) : AppState :=
  { s with t_header := h }

/-! ### Controller (`AppControl` from controller.py)

Every raised `AppError` is modelled as an `Except.error` carrying the exact
message string the source builds. -/

deriving instance DecidableEq for Except

/-- The `AppError` message raised by `getTrajectories` when a column role is
unset. -/
def roleErrorMsg : String :=
  "Select a value for the x header, y header and time header before plotting"

/-- The `AppError` message raised by `getTrajectories` when a range is
empty. -/
def rangeErrorMsg : String :=
  "Set the x and y range as a comma separated list in the for \x271,2,3\x27 or \x27a,b,c\x27 before plotting"

/-- The `AppError` message raised by `plot` when no plot listener is
wired. -/
def plotWireErrorMsg : String :=
  "Problem with app generation - no associated plot function for plot display"

/-- The `AppError` message raised by `plot` when no measure listener is
wired. -/
def measureWireErrorMsg : String :=
  "Problem with app generation - no associated function for measure display"

/-- The messages the spec classifies as `ConfigurationError` (missing column
role or axis range). -/
def configurationErrorMsgs : List String :=
  [roleErrorMsg, rangeErrorMsg]

/-- Whether a controller result is a raised `ConfigurationError`. -/
def isConfigErrorResult {α : Type} : Except String α → Bool
  | Except.error e => configurationErrorMsgs.contains e
  | Except.ok _ => false

/-- The extension keys of `AppControl.file_readers`, exactly as the
`file_reader` decorators register them in `dir()` order: note `read_xls`
registers the bare string `xls`, without a dot. -/
def fileReaderKeys : List String :=
  [".csv", ".traj", ".tsv", "xls"]

/-- `AppControl.canHandle`: membership in the reader registry. -/
def canHandle (extension : String) : Bool :=
  fileReaderKeys.contains extension

/-- The `AppError` message raised by `read_file` on an unregistered
extension, enumerating the registered keys. -/
def unsupportedMsg (extension : String) : String :=
  "StateSpaceGridApp can\x27t handle file of extension type " ++ extension ++
    ". Please use one of " ++ String.intercalate ", " fileReaderKeys

/-- `AppControl.read_file`: dispatch on the path's extension.  Every
registered reader parses the file with pandas and hands the table to
`addDataObject`; parsing is external, so the parsed table is the `parsed`
argument.  Returns the outcome together with the state after the call. -/
def read_file (s : AppState) (file_path : String) (parsed : DataFrame) :
    Except String Unit × AppState :=
  let extension := splitextExt file_path
  if canHandle extension then (Except.ok (), addDataObject s file_path parsed)
  else (Except.error (unsupportedMsg extension), s)

/-- The uncaught Python ValueError raised when `astype(float)` meets a
string cell it cannot convert. -/
def valueErrorMsg (v : String) : String :=
  "ValueError: could not convert string to float: \x27" ++ v ++ "\x27"

/-- Drop one leading sign character of a float literal. -/
def dropSign : List Char → List Char
  | '+' :: r => r
  | '-' :: r => r
  | l => l

/-- The exponent tail of a float literal: empty, or e/E with an optional
sign and at least one digit. -/
def expPartOk : List Char → Bool
  | [] => true
  | c :: r =>
    if c = 'e' || c = 'E' then
      let r2 := dropSign r
      !r2.isEmpty && r2.all (fun d => d.isDigit)
    else false

/-- A signless float literal body: digits with an optional fraction, or a
fraction with a leading dot, followed by an optional exponent. -/
def floatBodyOk (l : List Char) : Bool :=
  let ip := l.takeWhile (fun c => c.isDigit)
  let r1 := l.drop ip.length
  match r1 with
  | '.' :: r2 =>
    let fp := r2.takeWhile (fun c => c.isDigit)
    (!ip.isEmpty || !fp.isEmpty) && expPartOk (r2.drop fp.length)
  | _ => !ip.isEmpty && expPartOk r1

/-- Acceptance of a string by Python float conversion, as pandas
`astype(float)` applies to the cleaned time cells: optional surrounding
whitespace and sign, then a decimal literal or inf/infinity/nan
(case-insensitive).  Only conversion success is modelled, not the numeric
value (floating point). -/
def pyFloatOk (s : String) : Bool :=
  let body := dropSign (((s.data.dropWhile pyIsSpace).reverse.dropWhile pyIsSpace).reverse)
  let lower := body.map Char.toLower
  floatBodyOk body || lower == "inf".data || lower == "infinity".data || lower == "nan".data

/-- Left-to-right traversal with Python exception semantics: the first
raising element aborts the whole computation. -/
def mapExcept {A B : Type} (f : A → Except String B) : List A → Except String (List B)
  | [] => Except.ok []
  | a :: l =>
    match f a with
    | Except.error e => Except.error e
    | Except.ok b =>
      match mapExcept f l with
      | Except.error e => Except.error e
      | Except.ok bs => Except.ok (b :: bs)

/-- `statespacegrid.trajectory.Trajectory` as this controller builds one;
`times` keeps the cleaned cell strings (the `astype(float)` conversion is
not modelled). -/
structure Trajectory where
  x_range : List String
  y_range : List String
  states : List (String × String)
  times : List String
  deriving DecidableEq

/-- The trajectory built from one selected holder, with the pandas error
paths in the source's evaluation order: KeyError when the x, then y, then
time role column is absent from the frame, then ValueError at the first
cleaned time cell that does not convert to float; on success the per-column
dropna-cleaned x and y values are zipped into states and the cleaned time
values kept. -/
def buildTrajectory (xr yr : List String) (xh yh th : String) (d : DataObjectHolder) :
    Except String Trajectory :=
  if hasCol d.data xh then
    if hasCol d.data yh then
      if hasCol d.data th then
        match (colValues d.data th).find? (fun v => !(pyFloatOk v)) with
        | some v => Except.error (valueErrorMsg v)
        | none =>
          Except.ok
            ⟨xr, yr, (colValues d.data xh).zip (colValues d.data yh),
             colValues d.data th⟩
      else Except.error (keyErrorMsg th)
    else Except.error (keyErrorMsg yh)
  else Except.error (keyErrorMsg xh)

/-- `AppControl.getTrajectories`: raise the role message when a column role
is unset, then the range message when a range list is empty, else build one
trajectory per *selected* effective dataset in order, propagating the first
uncaught pandas KeyError/ValueError. -/
def getTrajectories (s : AppState) : Except String (List Trajectory) :=
  match s.x_header, s.y_header, s.t_header with
  | some xh, some yh, some th =>
    if s.x_range.isEmpty || s.y_range.isEmpty then Except.error rangeErrorMsg
    else
      mapExcept (buildTrajectory s.x_range s.y_range xh yh th)
        ((getDataObjects s).filter (fun d => d.selected))
  | _, _, _ => Except.error roleErrorMsg

/-- One observable callback invocation made by `plot`. -/
inductive CallEvent where
  | render (trajectories : List Trajectory) (xLabel yLabel : Option String)
  | measure (trajectories : List Trajectory)
  deriving DecidableEq

/-- `AppControl.plot`.  `renderWired` / `measureWired` say whether
`plot_listener` / `measure_listener` are non-None; the event list records
the callback invocations in source order: trajectories are computed first,
the render callback is invoked (raising the wiring error when absent), and
the measure callback is invoked only when the trajectory list is
non-empty. -/
def plot (s : AppState) (renderWired measureWired : Bool) :
    Except String Unit × List CallEvent :=
  match getTrajectories s with
  | Except.error e => (Except.error e, [])
  | Except.ok ts =>
    if renderWired = false then (Except.error plotWireErrorMsg, [])
    else if measureWired = false then
      (Except.error measureWireErrorMsg, [CallEvent.render ts s.x_header s.y_header])
    else if ts.isEmpty then
      (Except.ok (), [CallEvent.render ts s.x_header s.y_header])
    else
      (Except.ok (), [CallEvent.render ts s.x_header s.y_header, CallEvent.measure ts])

/-- One exported measures row: the value of its `id` column (`none` when the
column is absent) and the trajectories its measures were computed from
(`statespacegrid.measure.get_measures` itself is external, so a row records
its input rather than the measure fields). -/
structure ExportRow where
  id : Option String
  fromTrajectories : List Trajectory
  deriving DecidableEq

/-- `AppControl.export_measures`: per-trajectory export zips the identifier
strings of *all* effective datasets with the trajectories of the *selected*
ones and writes one row per pair; cumulative export writes a single row over
all trajectories. -/
def export_measures (s : AppState) (perTrajectory : Bool) :
    Except String (List ExportRow) :=
  match getTrajectories s with
  | Except.error e => Except.error e
  | Except.ok ts =>
    if perTrajectory then
      Except.ok (((getIDs s).zip ts).map (fun p => ⟨some p.1, [p.2]⟩))
    else Except.ok [⟨none, ts⟩]

/-- The condition under which `getTrajectories` raises a configuration
error: a column role unset or a range list empty. -/
def badConfig (s : AppState) : Bool :=
  s.x_header.isNone || s.y_header.isNone || s.t_header.isNone ||
    s.x_range.isEmpty || s.y_range.isEmpty

/-- Every selected effective dataset supports trajectory building: it has
the three role columns and all its cleaned time cells convert to float. -/
def goodData (s : AppState) : Bool :=
  match s.x_header, s.y_header, s.t_header with
  | some xh, some yh, some th =>
    ((getDataObjects s).filter (fun d => d.selected)).all
      (fun d => hasCol d.data xh && hasCol d.data yh && hasCol d.data th
        && (colValues d.data th).all (fun v => pyFloatOk v))
  | _, _, _ => false

/-! ### Reachability by the mutating state operations -/

/-- The mutating operations that build the dataset collections. -/
inductive Op where
  | add (file_path : String) (data : DataFrame)
  | setGroup (column : String)
  | reset

/-- Apply one mutating operation. -/
def applyOp (s : AppState) : Op → AppState
  | Op.add p d => addDataObject s p d
  | Op.setGroup c => addSplitByID s c
  | Op.reset => resetState s

/-- Run a sequence of mutating operations. -/
def runOps (s : AppState) (ops : List Op) : AppState :=
  ops.foldl applyOp s

/-- Every ungrouped holder has no group id and every split holder has
one. -/
def idInvariant (s : AppState) : Bool :=
  s.data_objects.all (fun d => d.filename.id.isNone) &&
    s.split_data_objects.all (fun d => d.filename.id.isSome)

/-! ### Concrete states used by the evaluations below -/

/-- A one-row table with columns A, B, T. -/
def dfA : DataFrame :=
  ⟨["A", "B", "T"], [[("A", "1"), ("B", "2"), ("T", "0.0")]]⟩

/-- Another one-row table with columns A, B, T. -/
def dfB : DataFrame :=
  ⟨["A", "B", "T"], [[("A", "5"), ("B", "6"), ("T", "2.0")]]⟩

/-- A holder for dfA whose selected flag has been cleared. -/
def holderA : DataObjectHolder :=
  ⟨⟨"a.csv", none⟩, ["A", "B", "T"], dfA, false⟩

/-- A selected holder for dfB. -/
def holderB : DataObjectHolder :=
  ⟨⟨"b.csv", none⟩, ["A", "B", "T"], dfB, true⟩

/-- A fully configured state whose first dataset is unselected. -/
def exportState : AppState :=
  { data_objects := [holderA, holderB], x_header := some "A", y_header := some "B",
    t_header := some "T", x_range := ["1", "5"], y_range := ["2", "6"] }

/-- The trajectory the controller builds from holderB under exportState. -/
def trajB : Trajectory :=
  ⟨["1", "5"], ["2", "6"], [("5", "6")], ["2.0"]⟩

/-- A fully configured state holding no datasets at all. -/
def emptyConfiguredState : AppState :=
  { x_header := some "A", y_header := some "B", t_header := some "T",
    x_range := ["1"], y_range := ["2"] }

/-- One dataset whose grouping column g has no rows at all. -/
def zeroRowState : AppState :=
  { data_objects := [⟨⟨"e.csv", none⟩, ["g"], ⟨["g"], []⟩, true⟩] }

/-- One dataset with two distinct values g1 and g2 of its ID column. -/
def groupWitnessState : AppState :=
  { data_objects := [⟨⟨"w.csv", none⟩, ["A", "ID"],
      ⟨["A", "ID"],
       [[("A", "1"), ("ID", "g2")], [("A", "2"), ("ID", "g1")], [("A", "3"), ("ID", "g1")]]⟩,
      true⟩] }

/-- A fully configured state whose one selected dataset lacks the role
column A. -/
def missingColState : AppState :=
  { data_objects := [⟨⟨"m.csv", none⟩, ["B", "T"],
      ⟨["B", "T"], [[("B", "2"), ("T", "0.0")]]⟩, true⟩],
    x_header := some "A", y_header := some "B", t_header := some "T",
    x_range := ["1"], y_range := ["2"] }

/-! ### Order lemmas for the notification sort -/

theorem listCharLe_total (as bs : List Char) :
    listCharLe as bs = true ∨ listCharLe bs as = true := by
  induction as generalizing bs with
  | nil => exact Or.inl rfl
  | cons a as ih =>
    cases bs with
    | nil => exact Or.inr rfl
    | cons b bs =>
      by_cases hab : a = b
      · subst hab
        simpa [listCharLe] using ih bs
      · have hba : b ≠ a := fun h => hab h.symm
        rcases lt_or_gt_of_ne hab with h | h
        · exact Or.inl (by simp [listCharLe, hab, h])
        · exact Or.inr (by simp [listCharLe, hba, h])

theorem listCharLe_trans (as bs cs : List Char) (h1 : listCharLe as bs = true)
    (h2 : listCharLe bs cs = true) : listCharLe as cs = true := by
  induction as generalizing bs cs with
  | nil => rfl
  | cons a as ih =>
    cases bs with
    | nil => simp [listCharLe] at h1
    | cons b bs =>
      cases cs with
      | nil => simp [listCharLe] at h2
      | cons c cs =>
        by_cases hab : a = b <;> by_cases hbc : b = c
        · subst hab; subst hbc
          simp only [listCharLe, if_pos rfl] at h1 h2 ⊢
          exact ih bs cs h1 h2
        · subst hab
          simp only [listCharLe, if_pos rfl, if_neg hbc] at h1 h2 ⊢
          exact h2
        · subst hbc
          simp only [listCharLe, if_pos rfl, if_neg hab] at h1 h2 ⊢
          exact h1
        · simp only [listCharLe, if_neg hab, if_neg hbc, decide_eq_true_eq] at h1 h2
          have hac : a < c := lt_trans h1 h2
          simp only [listCharLe, if_neg (ne_of_lt hac), decide_eq_true_eq]
          exact hac

theorem listCharLe_antisymm (as bs : List Char) (h1 : listCharLe as bs = true)
    (h2 : listCharLe bs as = true) : as = bs := by
  induction as generalizing bs with
  | nil =>
    cases bs with
    | nil => rfl
    | cons b bs => simp [listCharLe] at h2
  | cons a as ih =>
    cases bs with
    | nil => simp [listCharLe] at h1
    | cons b bs =>
      by_cases hab : a = b
      · subst hab
        simp only [listCharLe, if_pos rfl] at h1 h2
        rw [ih bs h1 h2]
      · have hba : b ≠ a := fun h => hab h.symm
        simp only [listCharLe, if_neg hab, if_neg hba, decide_eq_true_eq] at h1 h2
        exact absurd h2 (lt_asymm h1)

theorem strLe_total (a b : String) : strLe a b = true ∨ strLe b a = true :=
  listCharLe_total a.data b.data

theorem strLe_trans (a b c : String) (h1 : strLe a b = true) (h2 : strLe b c = true) :
    strLe a c = true :=
  listCharLe_trans a.data b.data c.data h1 h2

theorem strLe_antisymm (a b : String) (h1 : strLe a b = true) (h2 : strLe b a = true) :
    a = b := by
  cases a with
  | mk da =>
    cases b with
    | mk db => exact congrArg String.mk (listCharLe_antisymm da db h1 h2)

theorem idLe_total (a b : Option String) : idLe a b = true ∨ idLe b a = true := by
  cases a with
  | none => exact Or.inl rfl
  | some x =>
    cases b with
    | none => exact Or.inr rfl
    | some y => exact strLe_total x y

theorem idLe_trans (a b c : Option String) (h1 : idLe a b = true)
    (h2 : idLe b c = true) : idLe a c = true := by
  cases a with
  | none => rfl
  | some x =>
    cases b with
    | none => simp [idLe] at h1
    | some y =>
      cases c with
      | none => simp [idLe] at h2
      | some z => exact strLe_trans x y z h1 h2

theorem keyLe_total (a b : DataObjectHolder) : keyLe a b = true ∨ keyLe b a = true := by
  unfold keyLe
  by_cases h : a.filename.filename = b.filename.filename
  · have h2 : b.filename.filename = a.filename.filename := h.symm
    rw [if_pos h, if_pos h2]
    exact idLe_total _ _
  · have h2 : b.filename.filename ≠ a.filename.filename := fun e => h e.symm
    rw [if_neg h, if_neg h2]
    exact strLe_total _ _

theorem keyLe_trans (a b c : DataObjectHolder) (h1 : keyLe a b = true)
    (h2 : keyLe b c = true) : keyLe a c = true := by
  unfold keyLe at h1 h2 ⊢
  by_cases hab : a.filename.filename = b.filename.filename <;>
    by_cases hbc : b.filename.filename = c.filename.filename
  · rw [if_pos hab] at h1
    rw [if_pos hbc] at h2
    rw [if_pos (hab.trans hbc)]
    exact idLe_trans _ _ _ h1 h2
  · rw [if_pos hab] at h1
    rw [if_neg hbc] at h2
    have hac : a.filename.filename ≠ c.filename.filename := by
      rw [hab]; exact hbc
    rw [if_neg hac, hab]
    exact h2
  · rw [if_neg hab] at h1
    rw [if_pos hbc] at h2
    have hac : a.filename.filename ≠ c.filename.filename := hbc ▸ hab
    rw [if_neg hac, ← hbc]
    exact h1
  · rw [if_neg hab] at h1
    rw [if_neg hbc] at h2
    by_cases hac : a.filename.filename = c.filename.filename
    · exfalso
      rw [← hac] at h2
      exact hab (strLe_antisymm _ _ h1 h2)
    · rw [if_neg hac]
      exact strLe_trans _ _ _ h1 h2

instance : IsTotal String strLeP :=
  ⟨fun a b => strLe_total a b⟩

instance : IsTrans String strLeP :=
  ⟨fun a b c => strLe_trans a b c⟩

instance : IsTotal DataObjectHolder keyLeP :=
  ⟨fun a b => keyLe_total a b⟩

instance : IsTrans DataObjectHolder keyLeP :=
  ⟨fun a b c => keyLe_trans a b c⟩

/-! ### Helper lemmas -/

theorem splitCharList_ne_nil (sep : Char) (l : List Char) : splitCharList sep l ≠ [] := by
  cases l with
  | nil => simp [splitCharList]
  | cons c cs =>
    unfold splitCharList
    cases h : splitCharList sep cs with
    | nil => simp
    | cons g gs => by_cases hc : c = sep <;> simp [hc]

theorem pySplit_map_isEmpty (f : String → String) (sep : Char) (s : String) :
    ((pySplit sep s).map f).isEmpty = false := by
  unfold pySplit
  cases h : splitCharList sep s.data with
  | nil => exact absurd h (splitCharList_ne_nil sep s.data)
  | cons g gs => simp [h]

theorem splitByIDList_length (key : String) (d : DataObjectHolder) :
    (splitByIDList key d).length = distinctCount d.data key := by
  simp only [splitByIDList, groupby, List.length_map, distinctCount, groupKeys, sortStr]
  exact (List.perm_insertionSort _ _).length_eq

theorem splitByIDList_ids (key : String) (d : DataObjectHolder) :
    (splitByIDList key d).map (fun g => g.filename.id) = (groupKeys d.data key).map some := by
  simp [splitByIDList, groupby, List.map_map, Function.comp]

theorem splitByIDList_all_some (key : String) (d : DataObjectHolder) :
    (splitByIDList key d).all (fun g => g.filename.id.isSome) = true := by
  simp [splitByIDList, groupby, List.all_map, Function.comp]

theorem flatten_map_length_split (name : String) (l : List DataObjectHolder) :
    ((l.map (splitByIDList name)).flatten).length
      = (l.map (fun d => distinctCount d.data name)).sum := by
  induction l with
  | nil => rfl
  | cons d ds ih =>
    simp only [List.map_cons, List.flatten_cons, List.length_append, List.sum_cons, ih,
      splitByIDList_length]

theorem flatten_map_ids_split (name : String) (l : List DataObjectHolder) :
    ((l.map (splitByIDList name)).flatten).map (fun g => g.filename.id)
      = (l.map (fun d => (groupKeys d.data name).map some)).flatten := by
  induction l with
  | nil => rfl
  | cons d ds ih =>
    simp only [List.map_cons, List.flatten_cons, List.map_append, ih, splitByIDList_ids]

theorem roleMsg_config :
    isConfigErrorResult (Except.error roleErrorMsg : Except String (List Trajectory)) = true := by
  decide

theorem rangeMsg_config :
    isConfigErrorResult (Except.error rangeErrorMsg : Except String (List Trajectory)) = true := by
  decide

theorem getTrajectories_cases (s : AppState) :
    (badConfig s = true ∧ (getTrajectories s = Except.error roleErrorMsg
        ∨ getTrajectories s = Except.error rangeErrorMsg))
    ∨ (badConfig s = false ∧ ∃ xh yh th,
        s.x_header = some xh ∧ s.y_header = some yh ∧ s.t_header = some th ∧
        getTrajectories s
          = mapExcept (buildTrajectory s.x_range s.y_range xh yh th)
              ((getDataObjects s).filter (fun d => d.selected))) := by
  cases hx : s.x_header with
  | none =>
    exact Or.inl ⟨by simp [badConfig, hx], Or.inl (by simp [getTrajectories, hx])⟩
  | some xh =>
    cases hy : s.y_header with
    | none =>
      exact Or.inl ⟨by simp [badConfig, hy], Or.inl (by simp [getTrajectories, hx, hy])⟩
    | some yh =>
      cases ht : s.t_header with
      | none =>
        exact Or.inl ⟨by simp [badConfig, ht], Or.inl (by simp [getTrajectories, hx, hy, ht])⟩
      | some th =>
        cases hxr : s.x_range.isEmpty with
        | true =>
          exact Or.inl ⟨by simp [badConfig, hxr],
            Or.inr (by simp [getTrajectories, hx, hy, ht, hxr])⟩
        | false =>
          cases hyr : s.y_range.isEmpty with
          | true =>
            exact Or.inl ⟨by simp [badConfig, hyr],
              Or.inr (by simp [getTrajectories, hx, hy, ht, hxr, hyr])⟩
          | false =>
            refine Or.inr ⟨by simp [badConfig, hx, hy, ht, hxr, hyr],
              xh, yh, th, rfl, rfl, rfl, ?_⟩
            simp [getTrajectories, hx, hy, ht, hxr, hyr]

theorem goodData_eq (s : AppState) (xh yh th : String) (hx : s.x_header = some xh)
    (hy : s.y_header = some yh) (ht : s.t_header = some th) :
    goodData s = ((getDataObjects s).filter (fun d => d.selected)).all
      (fun d => hasCol d.data xh && hasCol d.data yh && hasCol d.data th
        && (colValues d.data th).all (fun v => pyFloatOk v)) := by
  unfold goodData
  rw [hx, hy, ht]

theorem all_ext {A : Type} (l : List A) (p q : A → Bool) (h : ∀ a, a ∈ l → p a = q a) :
    l.all p = l.all q := by
  induction l with
  | nil => rfl
  | cons a t ih =>
    rw [List.all_cons, List.all_cons, h a (List.mem_cons_self a t),
      ih (fun x hx => h x (List.mem_cons_of_mem a hx))]

theorem mapExcept_cons {A B : Type} (f : A → Except String B) (a : A) (l : List A) :
    mapExcept f (a :: l)
      = match f a with
        | Except.error e => Except.error e
        | Except.ok b =>
          match mapExcept f l with
          | Except.error e => Except.error e
          | Except.ok bs => Except.ok (b :: bs) := rfl

theorem mapExcept_isOk {A B : Type} (f : A → Except String B) (l : List A) :
    (mapExcept f l).isOk = l.all (fun a => (f a).isOk) := by
  induction l with
  | nil => rfl
  | cons a t ih =>
    rw [List.all_cons, ← ih, mapExcept_cons]
    cases hfa : f a with
    | error e => simp [Except.isOk, Except.toBool]
    | ok b =>
      cases hmt : mapExcept f t with
      | error e => simp [Except.isOk, Except.toBool]
      | ok bs => simp [Except.isOk, Except.toBool]

theorem mapExcept_error_mem {A B : Type} (f : A → Except String B) (l : List A)
    (e : String) (h : mapExcept f l = Except.error e) :
    ∃ a, a ∈ l ∧ f a = Except.error e := by
  induction l with
  | nil => simp [mapExcept] at h
  | cons a t ih =>
    rw [mapExcept_cons] at h
    cases hfa : f a with
    | error e2 =>
      rw [hfa] at h
      simp at h
      exact ⟨a, List.mem_cons_self a t, by rw [hfa, h]⟩
    | ok b =>
      rw [hfa] at h
      cases hmt : mapExcept f t with
      | error e2 =>
        rw [hmt] at h
        simp at h
        obtain ⟨x, hx, hfx⟩ := ih (by rw [hmt, h])
        exact ⟨x, List.mem_cons_of_mem a hx, hfx⟩
      | ok bs =>
        rw [hmt] at h
        simp at h

theorem mapExcept_ok_of_isOk {A B : Type} (f : A → Except String B) (l : List A)
    (h : (mapExcept f l).isOk = true) : ∃ bs, mapExcept f l = Except.ok bs := by
  cases hm : mapExcept f l with
  | error e => rw [hm] at h; simp [Except.isOk, Except.toBool] at h
  | ok bs => exact ⟨bs, rfl⟩

theorem buildTrajectory_isOk (xr yr : List String) (xh yh th : String)
    (d : DataObjectHolder) :
    (buildTrajectory xr yr xh yh th d).isOk
      = (hasCol d.data xh && hasCol d.data yh && hasCol d.data th
          && (colValues d.data th).all (fun v => pyFloatOk v)) := by
  unfold buildTrajectory
  cases hx : hasCol d.data xh with
  | false => simp [Except.isOk, Except.toBool]
  | true =>
    cases hy : hasCol d.data yh with
    | false => simp [Except.isOk, Except.toBool]
    | true =>
      cases ht : hasCol d.data th with
      | false => simp [Except.isOk, Except.toBool]
      | true =>
        simp only [if_true, Bool.true_and]
        cases hf : (colValues d.data th).find? (fun v => !(pyFloatOk v)) with
        | some v =>
          have hv := List.find?_some hf
          have hm := List.mem_of_find?_eq_some hf
          cases hall : (colValues d.data th).all (fun v => pyFloatOk v) with
          | true =>
            exfalso
            rw [List.all_eq_true] at hall
            have := hall v hm
            rw [this] at hv
            simp at hv
          | false => simp [Except.isOk, Except.toBool]
        | none =>
          have hnone := List.find?_eq_none.mp hf
          cases hall : (colValues d.data th).all (fun v => pyFloatOk v) with
          | true => simp [Except.isOk, Except.toBool]
          | false =>
            exfalso
            rw [Bool.eq_false_iff] at hall
            apply hall
            rw [List.all_eq_true]
            intro v hv
            have := hnone v hv
            simpa using this

theorem buildTrajectory_error_cases (xr yr : List String) (xh yh th : String)
    (d : DataObjectHolder) (e : String)
    (h : buildTrajectory xr yr xh yh th d = Except.error e) :
    (∃ c, e = keyErrorMsg c) ∨ ∃ v, e = valueErrorMsg v := by
  unfold buildTrajectory at h
  cases hx : hasCol d.data xh with
  | false => rw [hx] at h; simp at h; exact Or.inl ⟨xh, h.symm⟩
  | true =>
    rw [hx] at h
    cases hy : hasCol d.data yh with
    | false => rw [hy] at h; simp at h; exact Or.inl ⟨yh, h.symm⟩
    | true =>
      rw [hy] at h
      cases ht : hasCol d.data th with
      | false => rw [ht] at h; simp at h; exact Or.inl ⟨th, h.symm⟩
      | true =>
        rw [ht] at h
        simp only [if_true] at h
        cases hf : (colValues d.data th).find? (fun v => !(pyFloatOk v)) with
        | some v => rw [hf] at h; simp at h; exact Or.inr ⟨v, h.symm⟩
        | none => rw [hf] at h; simp at h

theorem data_append (a b : String) : (a ++ b).data = a.data ++ b.data := by
  cases a
  cases b
  rfl

theorem head_ne_imp_ne (a b : String) (x y : Char) (ra rb : List Char)
    (ha : a.data = x :: ra) (hb : b.data = y :: rb) (hxy : ¬ x = y) : ¬ a = b := by
  intro h
  rw [h, hb] at ha
  injection ha with h1 h2
  exact hxy h1.symm

theorem keyErrorMsg_data (c : String) :
    (keyErrorMsg c).data
      = 'K' :: (("eyError: \x27".data ++ c.data) ++ "\x27".data) := by
  unfold keyErrorMsg
  rw [data_append, data_append]
  rw [show "KeyError: \x27".data = 'K' :: "eyError: \x27".data from by decide]
  rw [List.cons_append, List.cons_append]

theorem valueErrorMsg_data (v : String) :
    (valueErrorMsg v).data
      = 'V' :: (("alueError: could not convert string to float: \x27".data ++ v.data)
          ++ "\x27".data) := by
  unfold valueErrorMsg
  rw [data_append, data_append]
  rw [show "ValueError: could not convert string to float: \x27".data
      = 'V' :: "alueError: could not convert string to float: \x27".data from by decide]
  rw [List.cons_append, List.cons_append]

theorem roleErrorMsg_data :
    roleErrorMsg.data
      = 'S' :: "elect a value for the x header, y header and time header before plotting".data := by
  decide

theorem rangeErrorMsg_data :
    rangeErrorMsg.data
      = 'S' :: "et the x and y range as a comma separated list in the for \x271,2,3\x27 or \x27a,b,c\x27 before plotting".data := by
  decide

theorem keyErrorMsg_not_config (c : String) :
    configurationErrorMsgs.contains (keyErrorMsg c) = false := by
  have h1 : ¬ keyErrorMsg c = roleErrorMsg :=
    head_ne_imp_ne _ _ 'K' 'S' _ _ (keyErrorMsg_data c) roleErrorMsg_data (by decide)
  have h2 : ¬ keyErrorMsg c = rangeErrorMsg :=
    head_ne_imp_ne _ _ 'K' 'S' _ _ (keyErrorMsg_data c) rangeErrorMsg_data (by decide)
  simp [configurationErrorMsgs, h1, h2]

theorem valueErrorMsg_not_config (v : String) :
    configurationErrorMsgs.contains (valueErrorMsg v) = false := by
  have h1 : ¬ valueErrorMsg v = roleErrorMsg :=
    head_ne_imp_ne _ _ 'V' 'S' _ _ (valueErrorMsg_data v) roleErrorMsg_data (by decide)
  have h2 : ¬ valueErrorMsg v = rangeErrorMsg :=
    head_ne_imp_ne _ _ 'V' 'S' _ _ (valueErrorMsg_data v) rangeErrorMsg_data (by decide)
  simp [configurationErrorMsgs, h1, h2]

theorem splitLoop_cons (key : String) (s : AppState) (d : DataObjectHolder)
    (ds : List DataObjectHolder) :
    splitLoop key s (d :: ds)
      = match splitByIDRun key s d with
        | Except.ok s2 => splitLoop key s2 ds
        | Except.error e => (s, some e) := rfl

theorem splitLoop_all_ok (key : String) (l : List DataObjectHolder) (s : AppState)
    (h : l.all (fun d => hasCol d.data key) = true) :
    splitLoop key s l
      = ({ s with split_data_objects :=
            s.split_data_objects ++ (l.map (splitByIDList key)).flatten }, none) := by
  induction l generalizing s with
  | nil => simp [splitLoop]
  | cons d ds ih =>
    rw [List.all_cons, Bool.and_eq_true] at h
    have hrun : splitByIDRun key s d
        = Except.ok
            { s with split_data_objects := s.split_data_objects ++ splitByIDList key d } := by
      unfold splitByIDRun
      rw [if_pos h.1]
    rw [splitLoop_cons, hrun]
    show splitLoop key
        { s with split_data_objects := s.split_data_objects ++ splitByIDList key d } ds = _
    rw [ih _ h.2]
    simp [List.append_assoc]

theorem addSplitByIDRun_eq (s : AppState) (name : String)
    (h : s.data_objects.all (fun d => hasCol d.data name) = true) :
    addSplitByIDRun s name = (addSplitByID s name, none) := by
  by_cases hn : name = ""
  · subst hn
    simp [addSplitByIDRun, addSplitByID]
  · unfold addSplitByIDRun addSplitByID
    rw [if_neg hn, if_neg hn]
    rw [splitLoop_all_ok name s.data_objects _ h]
    simp

theorem idInvariant_addDataObject (s : AppState) (p : String) (d : DataFrame)
    (h : idInvariant s = true) : idInvariant (addDataObject s p d) = true := by
  unfold idInvariant at h
  rw [Bool.and_eq_true] at h
  cases hsb : s.split_by_id with
  | none =>
    simp [addDataObject, hsb, idInvariant, List.all_append, h.1, h.2]
  | some k =>
    by_cases hk : k = ""
    · simp [addDataObject, hsb, hk, idInvariant, List.all_append, h.1, h.2]
    · simp [addDataObject, hsb, hk, idInvariant, List.all_append, h.1, h.2,
        splitByIDList_all_some]

theorem idInvariant_addSplitByID (s : AppState) (c : String)
    (h : idInvariant s = true) : idInvariant (addSplitByID s c) = true := by
  unfold idInvariant at h
  rw [Bool.and_eq_true] at h
  by_cases hc : c = ""
  · simp [addSplitByID, hc, idInvariant, h.1]
  · simp only [addSplitByID, if_neg hc, idInvariant]
    rw [Bool.and_eq_true]
    refine ⟨h.1, ?_⟩
    rw [List.all_flatten]
    rw [List.all_eq_true]
    intro x hx
    obtain ⟨d, hd, rfl⟩ := List.mem_map.mp hx
    exact splitByIDList_all_some c d

theorem idInvariant_resetState (s : AppState) : idInvariant (resetState s) = true := rfl

theorem idInvariant_applyOp (s : AppState) (op : Op) (h : idInvariant s = true) :
    idInvariant (applyOp s op) = true := by
  cases op with
  | add p d => exact idInvariant_addDataObject s p d h
  | setGroup c => exact idInvariant_addSplitByID s c h
  | reset => exact idInvariant_resetState s

theorem idInvariant_runOps (s : AppState) (ops : List Op) (h : idInvariant s = true) :
    idInvariant (runOps s ops) = true := by
  induction ops generalizing s with
  | nil => exact h
  | cons op ops ih => exact ih (applyOp s op) (idInvariant_applyOp s op h)

/-! ### The claims -/

/-- C1 counterexample: calling setRange on the x axis with the empty string
does not leave the range equal to the empty list (it stores the one-element
list containing the empty string). -/
theorem C1_empty_range_counterexample : (set_x_range initialState "").x_range ≠ [] := by
  decide

/-- C1 (amended): for either axis, setRange stores the list obtained by
splitting rawText on commas and trimming whitespace from each token; that
list is never empty, and for the empty string it is the one-element list
containing the empty string, not the empty list. -/
theorem C1_setRange_amended (s : AppState) (rawText : String) :
    (set_x_range s rawText).x_range = (pySplit ',' rawText).map pyStrip
    ∧ (set_y_range s rawText).y_range = (pySplit ',' rawText).map pyStrip
    ∧ (set_x_range s rawText).x_range.isEmpty = false
    ∧ (set_y_range s rawText).y_range.isEmpty = false
    ∧ (set_x_range s "").x_range = [""]
    ∧ (set_y_range s "").y_range = [""] :=
  ⟨rfl, rfl, pySplit_map_isEmpty pyStrip ',' rawText, pySplit_map_isEmpty pyStrip ',' rawText,
   by show (pySplit ',' "").map pyStrip = [""]; decide,
   by show (pySplit ',' "").map pyStrip = [""]; decide⟩

/-- C2: the Excel reader is registered under the bare key xls while
splitting a path ending in .xls yields the dotted extension .xls, so
canHandle rejects it and read_file raises the unsupported-extension error
instead of dispatching to read_xls — the other three extensions are
recognized (code bug: the decorator argument is missing its dot). -/
theorem C2_xls_not_dispatched :
    splitextExt "data.xls" = ".xls"
    ∧ canHandle ".xls" = false
    ∧ canHandle ".csv" = true ∧ canHandle ".traj" = true ∧ canHandle ".tsv" = true
    ∧ read_file initialState "data.xls" (DataFrame.mk [] [])
        = (Except.error (unsupportedMsg ".xls"), initialState) := by
  decide

/-- C3: at a configured state whose first dataset (a.csv) is unselected and
second (b.csv) is selected, per-trajectory export writes one row whose
measures come from b.csv's trajectory but whose id column is a.csv — the
identifier of the unselected dataset — because getIDs does not filter by the
selected flag while getTrajectories does (code bug: the zip misaligns). -/
theorem C3_export_id_mismatch :
    export_measures exportState true = Except.ok [⟨some "a.csv", [trajB]⟩]
    ∧ getTrajectories exportState = Except.ok [trajB]
    ∧ identStr holderB.filename = "b.csv"
    ∧ identStr holderA.filename = "a.csv"
    ∧ holderA.selected = false
    ∧ holderB.selected = true := by
  decide

/-- C4 counterexample: a configured state (roles and ranges set) whose one
selected dataset lacks the role column A: getTrajectories does not return a
trajectory list — the source raises an uncaught pandas KeyError instead of
succeeding. -/
theorem C4_missing_column_counterexample :
    badConfig missingColState = false
    ∧ getTrajectories missingColState = Except.error (keyErrorMsg "A")
    ∧ (getTrajectories missingColState).isOk = false := by
  decide

/-- C4 (amended): getTrajectories raises a ConfigurationError exactly when a
column role is unset or a range list is empty; with roles set and ranges
non-empty it never raises that error, and it returns a trajectory list
exactly when every selected effective dataset has the three role columns and
float-convertible cleaned time values — otherwise the uncaught pandas
KeyError/ValueError propagates instead. -/
theorem C4_config_error_iff (s : AppState) :
    (badConfig s = true ↔
      s.x_header = none ∨ s.y_header = none ∨ s.t_header = none
        ∨ s.x_range = [] ∨ s.y_range = [])
    ∧ isConfigErrorResult (getTrajectories s) = badConfig s
    ∧ (getTrajectories s).isOk = (!badConfig s && goodData s) := by
  refine ⟨?_, ?_, ?_⟩
  · simp [badConfig, Option.isNone_iff_eq_none, List.isEmpty_iff, or_assoc]
  · rcases getTrajectories_cases s with ⟨hb, he | he⟩ | ⟨hb, xh, yh, th, hx, hy, ht, he⟩
    · rw [hb, he]
      exact roleMsg_config
    · rw [hb, he]
      exact rangeMsg_config
    · rw [hb]
      cases hg : getTrajectories s with
      | error e =>
        rw [hg] at he
        obtain ⟨a, ha, hfa⟩ := mapExcept_error_mem _ _ _ he.symm
        rcases buildTrajectory_error_cases _ _ _ _ _ _ _ hfa with ⟨c, rfl⟩ | ⟨v, rfl⟩
        · exact keyErrorMsg_not_config c
        · exact valueErrorMsg_not_config v
      | ok ts => rfl
  · rcases getTrajectories_cases s with ⟨hb, he | he⟩ | ⟨hb, xh, yh, th, hx, hy, ht, he⟩
    · rw [hb, he]; rfl
    · rw [hb, he]; rfl
    · rw [hb, he, mapExcept_isOk, Bool.not_false, Bool.true_and,
        goodData_eq s xh yh th hx hy ht]
      exact all_ext _ _ _ (fun d hd => buildTrajectory_isOk s.x_range s.y_range xh yh th d)

/-- C5 counterexample: one dataset whose grouping column has no rows at all:
setGroupByColumn produces zero grouped entries, so the effective collection
falls back to the one original dataset and its size (1) differs from the sum
of distinct-value counts (0). -/
theorem C5_zero_group_counterexample :
    (getDataObjects (addSplitByID zeroRowState "g")).length
      ≠ (zeroRowState.data_objects.map (fun d => distinctCount d.data "g")).sum := by
  decide

/-- C5 (amended): provided every loaded dataset contains the grouping
column — otherwise the source's rebuild raises a pandas KeyError part-way
through (see addSplitByIDRun) — setGroupByColumn with a non-empty name
completes and rebuilds the grouped collection with exactly one entry per
distinct value of that column per dataset (sum over datasets of
distinct-value counts, group ids the values' string forms); the grouped
entries are the effective collection whenever at least one exists (when none
exists the effective collection falls back to the ungrouped datasets), and a
subsequent call with the empty name restores the original dataset
collection. -/
theorem C5_grouping_amended (s : AppState) (name : String) (h : ¬ name = "")
    (hcols : s.data_objects.all (fun d => hasCol d.data name) = true) :
    addSplitByIDRun s name = (addSplitByID s name, none)
    ∧ (addSplitByID s name).split_data_objects.length
        = (s.data_objects.map (fun d => distinctCount d.data name)).sum
    ∧ (addSplitByID s name).split_data_objects.map (fun g => g.filename.id)
        = (s.data_objects.map (fun d => (groupKeys d.data name).map some)).flatten
    ∧ ((addSplitByID s name).split_data_objects.isEmpty = false →
        getDataObjects (addSplitByID s name) = (addSplitByID s name).split_data_objects)
    ∧ getDataObjects (addSplitByID (addSplitByID s name) "") = s.data_objects := by
  have hsplit : (addSplitByID s name).split_data_objects
      = (s.data_objects.map (splitByIDList name)).flatten := by
    simp [addSplitByID, h]
  refine ⟨addSplitByIDRun_eq s name hcols, ?_, ?_, ?_, ?_⟩
  · rw [hsplit]
    exact flatten_map_length_split name s.data_objects
  · rw [hsplit]
    exact flatten_map_ids_split name s.data_objects
  · intro he
    simp [getDataObjects, he]
  · simp [addSplitByID, h, getDataObjects]

/-- C5 witness: grouping one dataset holding values g2, g1, g1 of its ID
column completes without a KeyError, yields two grouped entries, and
clearing the grouping restores the original dataset. -/
theorem C5_grouping_amended_witness :
    addSplitByIDRun groupWitnessState "ID" = (addSplitByID groupWitnessState "ID", none)
    ∧ (addSplitByID groupWitnessState "ID").split_data_objects.length
        = (groupWitnessState.data_objects.map (fun d => distinctCount d.data "ID")).sum
    ∧ getDataObjects (addSplitByID (addSplitByID groupWitnessState "ID") "")
        = groupWitnessState.data_objects :=
  ⟨(C5_grouping_amended groupWitnessState "ID" (by decide) (by decide)).1,
   (C5_grouping_amended groupWitnessState "ID" (by decide) (by decide)).2.1,
   (C5_grouping_amended groupWitnessState "ID" (by decide) (by decide)).2.2.2.2⟩

/-- C6: after reset the effective collection is empty, the grouping key and
the three column roles are None, listeners are notified with the empty list,
and both range fields are exactly what they were before the call. -/
theorem C6_reset_preserves_ranges (s : AppState) :
    getDataObjects (resetState s) = []
    ∧ (resetState s).split_by_id = none
    ∧ (resetState s).x_header = none
    ∧ (resetState s).y_header = none
    ∧ (resetState s).t_header = none
    ∧ updateList (resetState s) = []
    ∧ (resetState s).x_range = s.x_range
    ∧ (resetState s).y_range = s.y_range :=
  ⟨rfl, rfl, rfl, rfl, rfl, rfl, rfl, rfl⟩

/-- C7 counterexample: at a configured state whose selected dataset lacks a
role column, plot with the render callback unwired propagates the pandas
KeyError from trajectory computation instead of raising the internal wiring
error — trajectories are computed before the wiring check. -/
theorem C7_unwired_counterexample :
    plot missingColState false true = (Except.error (keyErrorMsg "A"), [])
    ∧ ¬ plot missingColState false true = (Except.error plotWireErrorMsg, []) := by
  decide

/-- C7 (amended): at any configured state (roles and ranges set), when no
effective dataset is selected, plot with both callbacks wired invokes only
the render callback, with the empty trajectory list; and when trajectory
computation succeeds — every selected dataset has the role columns and
float-convertible times, vacuously so for an empty selection — plot without
a wired render callback raises the internal wiring error (an uncaught
KeyError/ValueError from trajectory computation preempts it otherwise). -/
theorem C7_plot_empty_selection (s : AppState) (h : badConfig s = false) :
    ((getDataObjects s).filter (fun d => d.selected) = [] →
      plot s true true = (Except.ok (), [CallEvent.render [] s.x_header s.y_header]))
    ∧ (goodData s = true →
        ∀ mw, plot s false mw = (Except.error plotWireErrorMsg, [])) := by
  rcases getTrajectories_cases s with ⟨hb, _⟩ | ⟨hb, xh, yh, th, hx, hy, ht, he⟩
  · rw [h] at hb
    exact absurd hb (by simp)
  · constructor
    · intro hsel
      rw [hsel] at he
      have he2 : getTrajectories s = Except.ok [] := he
      unfold plot
      rw [he2]
      simp
    · intro hg mw
      have hisok : (getTrajectories s).isOk = true := by
        rw [he, mapExcept_isOk,
          all_ext _ _ _ (fun d hd => buildTrajectory_isOk s.x_range s.y_range xh yh th d)]
        rw [← goodData_eq s xh yh th hx hy ht]
        exact hg
      cases hg2 : getTrajectories s with
      | error e =>
        rw [hg2] at hisok
        simp [Except.isOk, Except.toBool] at hisok
      | ok ts =>
        unfold plot
        rw [hg2]
        simp

/-- C7 witness: a configured state with no datasets at all. -/
theorem C7_plot_empty_selection_witness :
    plot emptyConfiguredState true true
        = (Except.ok (), [CallEvent.render [] (some "A") (some "B")])
    ∧ plot emptyConfiguredState false true = (Except.error plotWireErrorMsg, []) :=
  ⟨(C7_plot_empty_selection emptyConfiguredState (by decide)).1 (by decide),
   (C7_plot_empty_selection emptyConfiguredState (by decide)).2 (by decide) true⟩

/-- C8: for a path whose extension has no registered reader, read_file
raises the unsupported-extension error — whose message names the extension
and enumerates the registered reader keys — and returns the state exactly as
it was, dataset collections included. -/
theorem C8_unsupported_extension (s : AppState) (file_path : String) (parsed : DataFrame)
    (h : canHandle (splitextExt file_path) = false) :
    read_file s file_path parsed
        = (Except.error (unsupportedMsg (splitextExt file_path)), s)
    ∧ unsupportedMsg (splitextExt file_path)
        = "StateSpaceGridApp can\x27t handle file of extension type "
            ++ splitextExt file_path ++ ". Please use one of "
            ++ ".csv, .traj, .tsv, xls" := by
  constructor
  · simp [read_file, h]
  · unfold unsupportedMsg
    rw [show String.intercalate ", " fileReaderKeys = ".csv, .traj, .tsv, xls" from by decide]

/-- C8 witness: a .xyz path is rejected and leaves the state unchanged. -/
theorem C8_unsupported_extension_witness :
    read_file initialState "trajectories.xyz" (DataFrame.mk [] [])
      = (Except.error (unsupportedMsg ".xyz"), initialState) :=
  (C8_unsupported_extension initialState "trajectories.xyz" (DataFrame.mk [] [])
    (by decide)).1

/-- C9: every listener notification delivers a permutation of the effective
dataset list sorted ascending by the (filename, group id) key, and this
holds after each of the notifying mutations addDataObject, addSplitByID and
reset. -/
theorem C9_notification_sorted (s : AppState) (p : String) (d : DataFrame) (c : String) :
    List.Sorted keyLeP (updateList s)
    ∧ (updateList s).Perm (getDataObjects s)
    ∧ List.Sorted keyLeP (updateList (addDataObject s p d))
    ∧ List.Sorted keyLeP (updateList (addSplitByID s c))
    ∧ List.Sorted keyLeP (updateList (resetState s)) :=
  ⟨List.sorted_insertionSort keyLeP (getDataObjects s),
   List.perm_insertionSort keyLeP (getDataObjects s),
   List.sorted_insertionSort keyLeP (getDataObjects (addDataObject s p d)),
   List.sorted_insertionSort keyLeP (getDataObjects (addSplitByID s c)),
   List.sorted_insertionSort keyLeP (getDataObjects (resetState s))⟩

/-- C10: in every state reachable from the initial state by addDataObject,
addSplitByID and reset, every ungrouped holder has no group id and every
split holder has one, so the effective dataset list never mixes entries with
and without a group id. -/
theorem C10_reachable_id_invariant (ops : List Op) :
    idInvariant (runOps initialState ops) = true
    ∧ ((getDataObjects (runOps initialState ops)).all (fun d => d.filename.id.isNone) = true
        ∨ (getDataObjects (runOps initialState ops)).all (fun d => d.filename.id.isSome) = true) := by
  have h := idInvariant_runOps initialState ops rfl
  refine ⟨h, ?_⟩
  unfold idInvariant at h
  rw [Bool.and_eq_true] at h
  unfold getDataObjects
  by_cases he : (runOps initialState ops).split_data_objects.isEmpty = true
  · rw [if_pos he]
    exact Or.inl h.1
  · rw [if_neg he]
    exact Or.inr h.2
